import Mathlib

/-!
Verification of the synapse core of SNet (`snet/core/synapse.py`).

The source is vectorized PyTorch code.  Tensors are embedded as lists of
reals and matrices as lists of rows.  The embedding keeps the operations the
source can actually execute elementwise (the masked scatter into the
spike-time trackers, the outer-product eligibility mask, `torch.matmul` in
`forward`), and models the operations that raise at run time by their error:

* a torch shape error from operands that disagree with the declared layer
  sizes is `SNetError.ShapeMismatch`;
* `NotImplementedError` from the abstract base hooks is
  `SNetError.UnimplementedRule`;
* the weight-update lines of both concrete hooks,
  `dw = lr * (self.weights[active] - bound) * torch.exp(-dt / tau)` and
  `self.weights[active] -= dw` (resp. `+= dw`), mix the flat one-dimensional
  masked selection `weights[active]` (shape `(K,)`) with the full unmasked
  two-dimensional `exp(-dt/tau)` matrix (shape `(P, Q)`).  Their broadcast
  product is two-dimensional whenever it exists, and an in-place op can
  never broadcast a two-dimensional operand onto its one-dimensional target
  (`update_lines_never_complete`), so every non-static hook call raises a
  torch broadcast RuntimeError before any weight is written and before
  `self._clamp()` is reached.  This error is `SNetError.BroadcastMismatch`;
  the `Except` embedding returns the error alone, dropping the partially
  mutated state (the tracker scatter has already executed when the error
  propagates).

The simulation time and the firing masks, which the source reads from the
`Network` and `Layer` collaborators, are passed as explicit arguments, and
the STDP parameters `tau_m`, `tau_p`, `learn_rate_m`, `learn_rate_p`, whose
configuration the source leaves to an external step (a TODO in
`ExponentialSTDPSynapse`), are fields assumed populated at construction.
-/

namespace SNet

/-- The error outcomes of the core: tensor shape disagreement with the
declared layer sizes, the unimplemented abstract update hooks, and the torch
broadcast RuntimeError raised by the weight-update lines of both concrete
hooks (an error the spec's taxonomy does not acknowledge). -/
inductive SNetError where
  | ShapeMismatch
  | UnimplementedRule
  | BroadcastMismatch
deriving DecidableEq

/-- Entry `(p, q)` of a matrix stored as a list of rows (row-major, like a
2-d torch tensor). -/
def matEntry (w : List (List ℝ)) (p q : Nat) : ℝ :=
  (w.getD p []).getD q 0

/-- numpy/torch broadcasting of two dimension lists given least-significant
dimension first: equal dimensions stay, a `1` stretches to the other
dimension, and the longer operand's extra dimensions are kept; anything else
fails. -/
def broadcastDims : List Nat → List Nat → Option (List Nat)
  | [], ys => some ys
  | xs, [] => some xs
  | x :: xs, y :: ys =>
    match broadcastDims xs ys with
    | none => none
    | some rest =>
      if x = y then some (x :: rest)
      else if x = 1 then some (y :: rest)
      else if y = 1 then some (x :: rest)
      else none

/-- numpy/torch broadcast of two tensor shapes (dimensions aligned from the
right, as usual most-significant first). -/
def broadcastShapes (s1 s2 : List Nat) : Option (List Nat) :=
  (broadcastDims s1.reverse s2.reverse).map List.reverse

/-- The synapse state: `AbstractSynapse.__init__` stores the two layer
references (kept here as their sizes), the weight matrix, the bounds, the
two last-spike-time trackers and the static flag; the STDP parameters are
the externally configured attributes read by the update hooks. -/
structure Synapse where
  pre_size : Nat
  post_size : Nat
  weights : List (List ℝ)
  w_min : ℝ
  w_max : ℝ
  last_pre_spike_time : List ℝ
  last_post_spike_time : List ℝ
  static : Bool
  tau_m : ℝ
  tau_p : ℝ
  learn_rate_m : ℝ
  learn_rate_p : ℝ

/-- `AbstractSynapse.__init__`: stores the supplied weight matrix verbatim,
sets `w_min = 0.` and `w_max = 1.`, initializes both trackers to the
sentinel `-1` (`-torch.ones(size)`, "never fired before") and `static` to
`False`.  No validation of the weight shape is performed. -/
noncomputable def Synapse.init (pre_size post_size : Nat) (weights : List (List ℝ))
    (tau_m tau_p learn_rate_m learn_rate_p : ℝ) : Synapse :=
  { pre_size := pre_size
    post_size := post_size
    weights := weights
    w_min := 0
    w_max := 1
    last_pre_spike_time := List.replicate pre_size (-1)
    last_post_spike_time := List.replicate post_size (-1)
    static := false
    tau_m := tau_m
    tau_p := tau_p
    learn_rate_m := learn_rate_m
    learn_rate_p := learn_rate_p }

/-- The tensor-shape side conditions under which the intermediate tensor
expressions of the update hooks (tracker scatter, `torch.ger`, the broadcast
`dt`, `weights[active]`) are all well-formed: the trackers have the layer
sizes and the weight matrix is `pre_size × post_size`. -/
def Synapse.wellShaped (s : Synapse) : Bool :=
  s.last_pre_spike_time.length == s.pre_size &&
  s.last_post_spike_time.length == s.post_size &&
  s.weights.length == s.pre_size &&
  s.weights.all (fun row => row.length == s.post_size)

/-- `self._last_xxx_spike_time[firing_mask] = self.time`: masked scatter of
the current time into the tracker.  In the source this mutation executes
before the hook raises at the weight-update lines; the `Except` embedding of
the hooks drops the partially mutated state, so this definition records what
that scatter computes. -/
def recordSpikes (times : List ℝ) (mask : List Bool) (t : ℝ) : List ℝ :=
  List.zipWith (fun old b => if b then t else old) times mask

/-- `AbstractSynapse._clamp`: `self.weights.clamp_(min=self.w_min,
max=self.w_max)`, elementwise `min (max x lo) hi` over the whole matrix.
Both concrete hooks call it last, but they raise at the weight-update lines
first, so no execution path of the source reaches it. -/
noncomputable def clampMat (lo hi : ℝ) (w : List (List ℝ)) : List (List ℝ) :=
  w.map (fun row => row.map (fun x => min (max x lo) hi))

/-- Eligibility of the pair `(p, q)` in `update_on_pre_spikes`, after the
new pre-spikes have been recorded into `lastPre`:
`active = torch.ger(self.pre_layer.firing_mask, post_active)` with
`post_active = self._last_post_spike_time >= 0`, then
`active &= (dt <= 2 * self.tau_m)` where `dt[p][q] = lastPre[p] -
last_post_spike_time[q]` (no lower bound on the window).  These mask lines
(source lines 97-105) execute successfully; the crash comes only at the
weight-update lines that follow. -/
def preSpikeActive (s : Synapse) (mask : List Bool) (lastPre : List ℝ) (p q : Nat) : Prop :=
  mask.getD p false = true ∧ 0 ≤ s.last_post_spike_time.getD q 0 ∧
    lastPre.getD p 0 - s.last_post_spike_time.getD q 0 ≤ 2 * s.tau_m

/-- Eligibility of the pair `(p, q)` in `update_on_post_spikes`, after the
new post-spikes have been recorded into `lastPost`:
`active = torch.ger(pre_active, self.post_layer.firing_mask)` with
`pre_active = self._last_pre_spike_time >= 0`, then
`active &= (dt <= 2 * self.tau_p)` where `dt[p][q] = lastPost[q] -
last_pre_spike_time[p]` (source lines 120-128). -/
def postSpikeActive (s : Synapse) (mask : List Bool) (lastPost : List ℝ) (p q : Nat) : Prop :=
  0 ≤ s.last_pre_spike_time.getD p 0 ∧ mask.getD q false = true ∧
    lastPost.getD q 0 - s.last_pre_spike_time.getD p 0 ≤ 2 * s.tau_p

namespace ExponentialSTDPSynapse

/-- `ExponentialSTDPSynapse.update_on_pre_spikes` (source lines 89-110).
When `static`, it returns at once.  Otherwise: a firing mask whose length
differs from the tracker's, or a synapse whose tensors disagree with the
declared sizes, raises a torch shape error (`ShapeMismatch`).  On the
well-shaped path the source records the spikes and computes the masks, then
`dw = self.learn_rate_m * (self.weights[active] - self.w_min) *
torch.exp(-dt / self.tau_m)` multiplies the flat `(K,)` masked selection by
the full `(P, Q)` exp matrix — either the product fails to broadcast or
`dw` is two-dimensional — and `self.weights[active] -= dw` then has to
broadcast the two-dimensional `dw` onto its one-dimensional `(K,)` target,
which fails for every `K, P, Q` (`update_lines_never_complete`).  So every
non-static call raises a torch broadcast RuntimeError
(`BroadcastMismatch`), with no weight written and `self._clamp()` never
reached. -/
noncomputable def update_on_pre_spikes (s : Synapse) (mask : List Bool) (t : ℝ) :
    Except SNetError Synapse :=
  if s.static then .ok s
  else if mask.length == s.last_pre_spike_time.length && s.wellShaped then
    .error .BroadcastMismatch
  else .error .ShapeMismatch

/-- `ExponentialSTDPSynapse.update_on_post_spikes` (source lines 112-133):
the potentiation branch has the same structure and the same defect —
`dw = self.learn_rate_p * (self.w_max - self.weights[active]) *
torch.exp(-dt / self.tau_p)` followed by `self.weights[active] += dw` —
so every non-static call raises the broadcast RuntimeError before any
weight is written. -/
noncomputable def update_on_post_spikes (s : Synapse) (mask : List Bool) (t : ℝ) :
    Except SNetError Synapse :=
  if s.static then .ok s
  else if mask.length == s.last_post_spike_time.length && s.wellShaped then
    .error .BroadcastMismatch
  else .error .ShapeMismatch

end ExponentialSTDPSynapse

namespace AbstractSynapse

/-- `AbstractSynapse.update_on_pre_spikes` raises `NotImplementedError`. -/
def update_on_pre_spikes (_ : Synapse) (_ : List Bool) (_ : ℝ) : Except SNetError Synapse :=
  .error .UnimplementedRule

/-- `AbstractSynapse.update_on_post_spikes` raises `NotImplementedError`. -/
def update_on_post_spikes (_ : Synapse) (_ : List Bool) (_ : ℝ) : Except SNetError Synapse :=
  .error .UnimplementedRule

end AbstractSynapse

/-- Column count of a matrix stored as a list of rows: the length of the
first row.  A rowless list retains no column metadata (unlike a torch
tensor of shape `(0, c)`), so a default — the declared post size, correct
for every state embedded from a well-shaped tensor — stands in. -/
def matCols (w : List (List ℝ)) (dflt : Nat) : Nat :=
  match w with
  | [] => dflt
  | row :: _ => row.length

/-- Entry `q` of the vector-matrix product `v · w`: the dot product of `v`
with column `q` of `w` (`torch.matmul` of a length-`P` vector with a `P×Q`
matrix). -/
noncomputable def vecMatMul (v : List ℝ) (w : List (List ℝ)) (cols : Nat) : List ℝ :=
  (List.range cols).map (fun q => (List.zipWith (fun a row => a * row.getD q 0) v w).sum)

/-- `AbstractSynapse.forward`: `self.post_layer.i = torch.matmul(pre,
self.weights)`.  `torch.matmul` of a 1-d `pre` with a 2-d weight tensor
requires exactly that the pre length equal the weight row count — no other
shape is consulted, and the spike-time trackers are never read — and yields
a vector with the matrix's column count (`matCols`).  The synapse state is
returned unchanged. -/
noncomputable def Synapse.forward (s : Synapse) (pre_o : List ℝ) :
    Except SNetError (Synapse × List ℝ) :=
  if pre_o.length == s.weights.length then
    .ok (s, vecMatMul pre_o s.weights (matCols s.weights s.post_size))
  else .error .ShapeMismatch

/-- Modelled from the spec: "Synapse construction requires: `pre_layer`,
`post_layer`, an initial `weights` matrix of shape `pre_layer.size ×
post_layer.size`, and a `Network` reference; shape mismatch between the
supplied matrix and the layer sizes fails construction."  The source
constructor performs no such check; this definition follows the spec's
words, to be compared with `Synapse.init`. -/
noncomputable def initSpec (pre_size post_size : Nat) (weights : List (List ℝ))
    (tau_m tau_p learn_rate_m learn_rate_p : ℝ) : Except SNetError Synapse :=
  if weights.length == pre_size && weights.all (fun row => row.length == post_size) then
    .ok (Synapse.init pre_size post_size weights tau_m tau_p learn_rate_m learn_rate_p)
  else .error .ShapeMismatch

/-- One scheduler-issued spike event: which side fired, with the firing mask
and the network time at the moment of the call. -/
inductive SpikeEvent where
  | pre (mask : List Bool) (t : ℝ)
  | post (mask : List Bool) (t : ℝ)

/-- Dispatch one spike event to the corresponding update hook of the
exponential-STDP synapse. -/
noncomputable def step (s : Synapse) : SpikeEvent → Except SNetError Synapse
  | .pre mask t => ExponentialSTDPSynapse.update_on_pre_spikes s mask t
  | .post mask t => ExponentialSTDPSynapse.update_on_post_spikes s mask t

/-- Run a sequence of spike events from a state, stopping at the first
error. -/
noncomputable def run (s : Synapse) : List SpikeEvent → Except SNetError Synapse
  | [] => .ok s
  | e :: es =>
    match step s e with
    | .ok s' => run s' es
    | .error err => .error err

/-! ### The two weight-update lines cannot both succeed

`dw`'s broadcast product of the flat `(k,)` masked selection with the
`(p, q)` exp matrix is two-dimensional whenever it exists, and an in-place
op must broadcast its operand onto the target's own shape, which never turns
a two-dimensional `dw` into the one-dimensional `(k,)` selection. -/

theorem update_lines_never_complete (k p q : Nat) :
    (∀ sh, broadcastShapes [k] [p, q] = some sh → ∃ c, sh = [p, c]) ∧
    ∀ a b, broadcastShapes [k] [a, b] ≠ some [k] := by
  constructor
  · intro sh h
    simp only [broadcastShapes, List.reverse_cons, List.reverse_nil, List.nil_append,
      List.cons_append, broadcastDims] at h
    split_ifs at h <;> simp_all <;>
      first
        | exact ⟨q, h.symm⟩
        | exact ⟨k, h.symm⟩
  · intro a b h
    simp only [broadcastShapes, List.reverse_cons, List.reverse_nil, List.nil_append,
      List.cons_append, broadcastDims] at h
    split_ifs at h <;> simp_all

/-! ### Shape bookkeeping -/

theorem wellShaped_iff (s : Synapse) :
    s.wellShaped = true ↔
      s.last_pre_spike_time.length = s.pre_size ∧
      s.last_post_spike_time.length = s.post_size ∧
      s.weights.length = s.pre_size ∧
      ∀ row ∈ s.weights, row.length = s.post_size := by
  simp [Synapse.wellShaped]
  tauto

theorem matCols_of_wellShaped {s : Synapse} (h : s.wellShaped = true) :
    matCols s.weights s.post_size = s.post_size := by
  obtain ⟨-, -, -, hrow⟩ := (wellShaped_iff s).1 h
  cases hw : s.weights with
  | nil => rfl
  | cons row rest =>
    show row.length = s.post_size
    exact hrow row (by rw [hw]; exact List.mem_cons_self row rest)

theorem init_wellShaped (P Q : Nat) (W : List (List ℝ)) (tm tp lm lp : ℝ)
    (h1 : W.length = P) (h2 : ∀ row ∈ W, row.length = Q) :
    (Synapse.init P Q W tm tp lm lp).wellShaped = true := by
  rw [wellShaped_iff]
  exact ⟨by simp [Synapse.init], by simp [Synapse.init], by simp [Synapse.init, h1],
    by simpa [Synapse.init] using h2⟩

/-! ### The static early return, the only completing path of the hooks -/

theorem update_pre_static (s : Synapse) (mask : List Bool) (t : ℝ) (h : s.static = true) :
    ExponentialSTDPSynapse.update_on_pre_spikes s mask t = .ok s := by
  unfold ExponentialSTDPSynapse.update_on_pre_spikes
  rw [if_pos (by simp [h])]

theorem update_post_static (s : Synapse) (mask : List Bool) (t : ℝ) (h : s.static = true) :
    ExponentialSTDPSynapse.update_on_post_spikes s mask t = .ok s := by
  unfold ExponentialSTDPSynapse.update_on_post_spikes
  rw [if_pos (by simp [h])]

/-! ### The forward product -/

theorem zipWith_dot_sum (v : List ℝ) (w : List (List ℝ)) (q : Nat) :
    (List.zipWith (fun a row => a * row.getD q 0) v w).sum =
      ∑ p ∈ Finset.range (min v.length w.length), v.getD p 0 * matEntry w p q := by
  induction v generalizing w with
  | nil => simp
  | cons a v ih =>
    cases w with
    | nil => simp
    | cons row w =>
      have hmin : min (a :: v).length (row :: w).length = min v.length w.length + 1 := by
        simp [Nat.succ_min_succ]
      rw [List.zipWith_cons_cons, List.sum_cons, ih w, hmin, Finset.sum_range_succ']
      simp only [List.getD_cons_succ, List.getD_cons_zero, matEntry]
      ring

theorem getD_vecMatMul (v : List ℝ) (w : List (List ℝ)) (cols q : Nat) (hq : q < cols) :
    (vecMatMul v w cols).getD q 0 =
      ∑ p ∈ Finset.range (min v.length w.length), v.getD p 0 * matEntry w p q := by
  unfold vecMatMul
  rw [List.getD_eq_getElem _ _ (by simpa), List.getElem_map, List.getElem_range]
  exact zipWith_dot_sum v w q

/-! ### The claims -/

/-- Claim C1 is a code bug: the spec's depression rule — each eligible pair's
weight decreases by `learn_rate_m · (w - w_min) · exp(-dt/tau_m)` before
clamping — is what the source intends (its comments agree), but the source
cannot perform it: `dw` multiplies the flat masked `weights[active]` of shape
`(K,)` by the full unmasked `(1, 1)` exp matrix (here `K = 1`: the broadcast
product exists with shape `(1, 1)`), and the in-place
`self.weights[active] -= dw` then fails to broadcast the 2-d `dw` onto the
1-d selection, raising a RuntimeError.  At the scenario state (post fired at
`t = 5`, pre firing at `t = 10`, an eligible pair) the call errors and the
decrement never happens. -/
theorem claim1_code_bug :
    ExponentialSTDPSynapse.update_on_pre_spikes
        { Synapse.init 1 1 [[0.5]] 20 20 0.1 0.1 with last_post_spike_time := [5] }
        [true] 10 = .error .BroadcastMismatch ∧
    broadcastShapes [1] [1, 1] = some [1, 1] ∧
    broadcastShapes [1] [1, 1] ≠ some [1] :=
  ⟨rfl, by decide, by decide⟩

/-- Claim C2 is a code bug: the potentiation branch (source lines 112-133)
has the same defect — `dw = learn_rate_p * (w_max - weights[active]) *
torch.exp(-dt/tau_p)` mixes the 1-d masked selection with the full 2-d exp
matrix, and `weights[active] += dw` raises — so at an eligible-pair state
(pre fired at `t = 10`, post firing at `t = 12`) the call errors and the
claimed increment never happens. -/
theorem claim2_code_bug :
    ExponentialSTDPSynapse.update_on_post_spikes
        { Synapse.init 1 1 [[0.5]] 20 20 0.1 0.1 with last_pre_spike_time := [10] }
        [true] 12 = .error .BroadcastMismatch ∧
    broadcastShapes [1] [1, 1] = some [1, 1] ∧
    broadcastShapes [1] [1, 1] ≠ some [1] :=
  ⟨rfl, by decide, by decide⟩

/-- Claim C3 is a code bug: the bound invariant `w_min ≤ w ≤ w_max` after
every update call is the spec's clear intent (clamp after every mutation),
but in the source no non-static call returns at all — it raises at the
weight-update lines before `self._clamp()` — so a synapse constructed with
the out-of-bounds entry `2` keeps it unclamped (`w_max = 1 < 2`) and the
one-event run errors instead of restoring the invariant. -/
theorem claim3_code_bug :
    (Synapse.init 1 1 [[2]] 20 20 0.1 0.1).weights = [[2]] ∧
    (Synapse.init 1 1 [[2]] 20 20 0.1 0.1).w_max = 1 ∧
    matEntry (Synapse.init 1 1 [[2]] 20 20 0.1 0.1).weights 0 0 = 2 ∧
    (Synapse.init 1 1 [[2]] 20 20 0.1 0.1).w_max <
      matEntry (Synapse.init 1 1 [[2]] 20 20 0.1 0.1).weights 0 0 ∧
    run (Synapse.init 1 1 [[2]] 20 20 0.1 0.1) [SpikeEvent.pre [true] 0] =
      .error .BroadcastMismatch :=
  ⟨rfl, rfl, rfl, by norm_num [Synapse.init, matEntry], rfl⟩

/-- Claim C4 is a code bug: the numeric seed scenario is the spec's intent,
but its very first step already crashes the source.  With pre never fired,
no pair is eligible, so `weights[active]` is the empty `(0,)` selection; the
`dw` product broadcasts `(0,)` against the `(1, 1)` exp matrix to the 2-d
shape `(1, 0)`, and the in-place `weights[active] += dw` cannot broadcast
`(1, 0)` onto `(0,)` and raises.  The program never produces the values
`0.5`, `0.46106`, `0.50983`. -/
theorem claim4_code_bug :
    ExponentialSTDPSynapse.update_on_post_spikes
        (Synapse.init 1 1 [[0.5]] 20 20 0.1 0.1) [true] 5 = .error .BroadcastMismatch ∧
    broadcastShapes [0] [1, 1] = some [1, 0] ∧
    broadcastShapes [0] [1, 0] ≠ some [0] :=
  ⟨rfl, by decide, by decide⟩

/-- Claim C5 is a code bug: the spec asserts that update calls with
size-matching masks run to completion and raise nothing, and that
`ShapeMismatch` and `UnimplementedRule` are the only error conditions; in
the source every non-static hook call — even with matching masks, even with
no new spikes at all — raises a torch broadcast RuntimeError at the
weight-update lines, an error outside the claimed taxonomy. -/
theorem claim5_code_bug :
    ExponentialSTDPSynapse.update_on_pre_spikes
        (Synapse.init 1 1 [[0.5]] 20 20 0.1 0.1) [true] 0 = .error .BroadcastMismatch ∧
    ExponentialSTDPSynapse.update_on_post_spikes
        (Synapse.init 1 1 [[0.5]] 20 20 0.1 0.1) [false] 1 = .error .BroadcastMismatch ∧
    SNetError.BroadcastMismatch ≠ SNetError.ShapeMismatch ∧
    SNetError.BroadcastMismatch ≠ SNetError.UnimplementedRule :=
  ⟨rfl, rfl, by decide, by decide⟩

/-- Claim C6 is a code bug: sentinel exclusion is real in the eligibility
masks the source does compute successfully (lines 97-105 and 120-128) — on a
fresh synapse both trackers are at the sentinel `-1`, so no pair is eligible
in either direction, whatever timestamps the scatter records — but the
claim's conclusion that the call then leaves the column (row) of weights
unchanged never plays out: the call raises at the weight-update lines, so no
call completes, and weights are untouched only because the update crashes
before writing anything. -/
theorem claim6_code_bug :
    (∀ p', ¬ preSpikeActive (Synapse.init 1 1 [[0.5]] 20 20 0.1 0.1) [true] [0] p' 0) ∧
    (∀ q', ¬ postSpikeActive (Synapse.init 1 1 [[0.5]] 20 20 0.1 0.1) [true] [0] 0 q') ∧
    ExponentialSTDPSynapse.update_on_pre_spikes
        (Synapse.init 1 1 [[0.5]] 20 20 0.1 0.1) [true] 0 = .error .BroadcastMismatch ∧
    ExponentialSTDPSynapse.update_on_post_spikes
        (Synapse.init 1 1 [[0.5]] 20 20 0.1 0.1) [true] 0 = .error .BroadcastMismatch := by
  refine ⟨?_, ?_, rfl, rfl⟩
  · intro p' h
    have := h.2.1
    norm_num [Synapse.init] at this
  · intro q' h
    have := h.1
    norm_num [Synapse.init] at this

/-- Claim C7: for a synapse with `static = true`, both update hooks return
immediately, and any sequence of pre/post spike events (any firing masks,
any times) leaves the weights matrix — indeed the whole synapse state —
exactly unchanged. -/
theorem claim7_static_freeze (s : Synapse) (h : s.static = true) :
    (∀ (mask : List Bool) (t : ℝ),
      ExponentialSTDPSynapse.update_on_pre_spikes s mask t = .ok s ∧
      ExponentialSTDPSynapse.update_on_post_spikes s mask t = .ok s) ∧
    ∀ es : List SpikeEvent, run s es = .ok s := by
  refine ⟨fun mask t => ⟨update_pre_static s mask t h, update_post_static s mask t h⟩, ?_⟩
  intro es
  induction es with
  | nil => rfl
  | cons e es ih =>
    show (match step s e with
          | .ok s' => run s' es
          | .error err => .error err) = .ok s
    cases e with
    | pre mask t =>
      rw [show step s (.pre mask t) = .ok s from update_pre_static s mask t h]
      exact ih
    | post mask t =>
      rw [show step s (.post mask t) = .ok s from update_post_static s mask t h]
      exact ih

theorem claim7_witness :
    ({ Synapse.init 1 1 [[0.5]] 20 20 0.1 0.1 with static := true } : Synapse).static = true ∧
    run { Synapse.init 1 1 [[0.5]] 20 20 0.1 0.1 with static := true }
        [SpikeEvent.pre [true] 3, SpikeEvent.post [false] 4] =
      .ok { Synapse.init 1 1 [[0.5]] 20 20 0.1 0.1 with static := true } :=
  ⟨rfl, (claim7_static_freeze _ rfl).2 _⟩

/-- Claim C8: `forward` computes `post_layer.i = pre_layer.o · weights`
(entry `q` of the output is the dot product of the pre outputs with column
`q` of the `P×Q` weight matrix) and modifies none of `weights`,
`last_pre_spike_time`, `last_post_spike_time` — the synapse state comes
back exactly unchanged. -/
theorem claim8_forward_product (s : Synapse) (pre_o : List ℝ)
    (h1 : pre_o.length = s.pre_size) (h2 : s.wellShaped = true) :
    Synapse.forward s pre_o = .ok (s, vecMatMul pre_o s.weights s.post_size) ∧
    (vecMatMul pre_o s.weights s.post_size).length = s.post_size ∧
    (∀ q, q < s.post_size →
      (vecMatMul pre_o s.weights s.post_size).getD q 0 =
        ∑ p ∈ Finset.range s.pre_size, pre_o.getD p 0 * matEntry s.weights p q) ∧
    ∀ s' out, Synapse.forward s pre_o = .ok (s', out) →
      s'.weights = s.weights ∧ s'.last_pre_spike_time = s.last_pre_spike_time ∧
        s'.last_post_spike_time = s.last_post_spike_time := by
  obtain ⟨hlenPre, hlenPost, hlenW, _⟩ := (wellShaped_iff s).1 h2
  have hc : (pre_o.length == s.weights.length) = true := beq_iff_eq.mpr (by rw [h1, hlenW])
  have hfwd : Synapse.forward s pre_o = .ok (s, vecMatMul pre_o s.weights s.post_size) := by
    unfold Synapse.forward
    rw [if_pos hc, matCols_of_wellShaped h2]
  refine ⟨hfwd, by simp [vecMatMul], ?_, ?_⟩
  · intro q hq
    rw [getD_vecMatMul pre_o s.weights s.post_size q hq]
    congr 2
    rw [h1, hlenW]
    simp
  · intro s' out hok
    rw [hfwd] at hok
    simp only [Except.ok.injEq, Prod.mk.injEq] at hok
    rw [← hok.1]
    exact ⟨rfl, rfl, rfl⟩

theorem claim8_witness :
    Synapse.forward (Synapse.init 1 1 [[0.5]] 20 20 0.1 0.1) [2] =
      .ok (Synapse.init 1 1 [[0.5]] 20 20 0.1 0.1, vecMatMul [2] [[0.5]] 1) ∧
    (vecMatMul ([2] : List ℝ) [[0.5]] 1).length = 1 ∧
    (∀ q, q < 1 →
      (vecMatMul ([2] : List ℝ) [[0.5]] 1).getD q 0 =
        ∑ p ∈ Finset.range 1, ([2] : List ℝ).getD p 0 * matEntry [[0.5]] p q) ∧
    ∀ s' out, Synapse.forward (Synapse.init 1 1 [[0.5]] 20 20 0.1 0.1) [2] = .ok (s', out) →
      s'.weights = [[0.5]] ∧ s'.last_pre_spike_time = List.replicate 1 (-1) ∧
        s'.last_post_spike_time = List.replicate 1 (-1) :=
  claim8_forward_product (Synapse.init 1 1 [[0.5]] 20 20 0.1 0.1) [2] rfl
    (init_wellShaped 1 1 [[0.5]] 20 20 0.1 0.1 rfl (by simp))

/-- Claim C9 is refuted: constructing a synapse between two size-1 layers
from a 1×2 weight matrix does not fail — the source constructor validates
nothing and stores the mismatched matrix verbatim with its default bounds —
whereas the construction contract modelled from the spec rejects exactly
this input with `ShapeMismatch`. -/
theorem claim9_counterexample :
    (Synapse.init 1 1 [[0.3, 0.7]] 20 20 0.1 0.1).weights = [[0.3, 0.7]] ∧
    (Synapse.init 1 1 [[0.3, 0.7]] 20 20 0.1 0.1).w_min = 0 ∧
    (Synapse.init 1 1 [[0.3, 0.7]] 20 20 0.1 0.1).w_max = 1 ∧
    initSpec 1 1 [[0.3, 0.7]] 20 20 0.1 0.1 = .error .ShapeMismatch := by
  refine ⟨rfl, rfl, rfl, ?_⟩
  unfold initSpec
  rw [if_neg (by simp)]

/-- Claim C9 (amended): construction never fails — the constructor stores
the supplied weights matrix verbatim without shape validation, while a
matrix of matching shape does satisfy the construction contract modelled
from the spec.  The stored mismatched matrix is simply used as-is
afterwards: in particular `forward`'s matmul succeeds whenever the
pre-output length equals the weight row count, so the mismatch is not
rejected there either. -/
theorem claim9_amended (P Q : Nat) (W : List (List ℝ)) (tm tp lm lp : ℝ) :
    (Synapse.init P Q W tm tp lm lp).weights = W ∧
    (W.length = P → (∀ row ∈ W, row.length = Q) →
      initSpec P Q W tm tp lm lp = .ok (Synapse.init P Q W tm tp lm lp)) ∧
    (∀ pre_o : List ℝ, pre_o.length = W.length →
      Synapse.forward (Synapse.init P Q W tm tp lm lp) pre_o =
        .ok (Synapse.init P Q W tm tp lm lp, vecMatMul pre_o W (matCols W Q))) := by
  refine ⟨rfl, ?_, ?_⟩
  · intro hW1 hW2
    have hc : (W.length == P && W.all fun row => row.length == Q) = true := by
      simp only [Bool.and_eq_true, beq_iff_eq, List.all_eq_true]
      exact ⟨hW1, fun row hrow => hW2 row hrow⟩
    unfold initSpec
    rw [if_pos hc]
  · intro pre_o hlen
    have hc : (pre_o.length == (Synapse.init P Q W tm tp lm lp).weights.length) = true :=
      beq_iff_eq.mpr hlen
    unfold Synapse.forward
    rw [if_pos hc]
    rfl

theorem claim9_amended_witness :
    (Synapse.init 1 1 [[0.3, 0.7]] 20 20 0.1 0.1).weights = [[0.3, 0.7]] ∧
    initSpec 1 1 [[0.5]] 20 20 0.1 0.1 = .ok (Synapse.init 1 1 [[0.5]] 20 20 0.1 0.1) ∧
    Synapse.forward (Synapse.init 1 1 [[0.3, 0.7]] 20 20 0.1 0.1) [2] =
      .ok (Synapse.init 1 1 [[0.3, 0.7]] 20 20 0.1 0.1, vecMatMul [2] [[0.3, 0.7]] 2) :=
  ⟨(claim9_amended 1 1 [[0.3, 0.7]] 20 20 0.1 0.1).1,
    (claim9_amended 1 1 [[0.5]] 20 20 0.1 0.1).2.1 rfl (by simp),
    (claim9_amended 1 1 [[0.3, 0.7]] 20 20 0.1 0.1).2.2 [2] rfl⟩

/-- Claim C10 is refuted in its final clause: the constructor does
unconditionally set `w_min = 0` and `w_max = 1` and does store the
caller-supplied matrix verbatim, but the out-of-bounds entry `2` does not
disappear at the first non-static update-hook call — that call raises at
the weight-update lines before `self._clamp()`, in both directions. -/
theorem claim10_counterexample :
    (Synapse.init 1 1 [[2]] 20 20 0.1 0.1).w_min = 0 ∧
    (Synapse.init 1 1 [[2]] 20 20 0.1 0.1).w_max = 1 ∧
    (Synapse.init 1 1 [[2]] 20 20 0.1 0.1).weights = [[2]] ∧
    (Synapse.init 1 1 [[2]] 20 20 0.1 0.1).static = false ∧
    ExponentialSTDPSynapse.update_on_pre_spikes
        (Synapse.init 1 1 [[2]] 20 20 0.1 0.1) [true] 3 = .error .BroadcastMismatch ∧
    ExponentialSTDPSynapse.update_on_post_spikes
        (Synapse.init 1 1 [[2]] 20 20 0.1 0.1) [true] 3 = .error .BroadcastMismatch :=
  ⟨rfl, rfl, rfl, rfl, rfl, rfl⟩

/-- Claim C10 (amended): the constructor unconditionally sets `w_min = 0`
and `w_max = 1` and stores the caller-supplied initial weights matrix
without clamping or validation; an out-of-bounds entry is observable after
construction — `forward` returns the state untouched — and persists
indefinitely: it is never clamped, because every non-static update-hook
call raises at the weight-update lines (as a broadcast RuntimeError on the
well-shaped path, a shape RuntimeError otherwise) before reaching
`_clamp`. -/
theorem claim10_amended (P Q : Nat) (W : List (List ℝ)) (tm tp lm lp : ℝ) :
    (Synapse.init P Q W tm tp lm lp).w_min = 0 ∧
    (Synapse.init P Q W tm tp lm lp).w_max = 1 ∧
    (Synapse.init P Q W tm tp lm lp).weights = W ∧
    (Synapse.init P Q W tm tp lm lp).static = false ∧
    (∀ pre_o : List ℝ, pre_o.length = W.length →
      Synapse.forward (Synapse.init P Q W tm tp lm lp) pre_o =
        .ok (Synapse.init P Q W tm tp lm lp, vecMatMul pre_o W (matCols W Q))) ∧
    (∀ (mask : List Bool) (t : ℝ),
      ExponentialSTDPSynapse.update_on_pre_spikes (Synapse.init P Q W tm tp lm lp) mask t =
          .error .BroadcastMismatch ∨
        ExponentialSTDPSynapse.update_on_pre_spikes (Synapse.init P Q W tm tp lm lp) mask t =
          .error .ShapeMismatch) ∧
    (∀ (mask : List Bool) (t : ℝ),
      ExponentialSTDPSynapse.update_on_post_spikes (Synapse.init P Q W tm tp lm lp) mask t =
          .error .BroadcastMismatch ∨
        ExponentialSTDPSynapse.update_on_post_spikes (Synapse.init P Q W tm tp lm lp) mask t =
          .error .ShapeMismatch) := by
  have hstat : ¬ ((Synapse.init P Q W tm tp lm lp).static = true) := by
    simp [Synapse.init]
  refine ⟨rfl, rfl, rfl, rfl, ?_, ?_, ?_⟩
  · intro pre_o hlen
    have hc : (pre_o.length == (Synapse.init P Q W tm tp lm lp).weights.length) = true :=
      beq_iff_eq.mpr hlen
    unfold Synapse.forward
    rw [if_pos hc]
    rfl
  · intro mask t
    by_cases hg : (mask.length == (Synapse.init P Q W tm tp lm lp).last_pre_spike_time.length &&
        (Synapse.init P Q W tm tp lm lp).wellShaped) = true
    · refine Or.inl ?_
      unfold ExponentialSTDPSynapse.update_on_pre_spikes
      rw [if_neg hstat, if_pos hg]
    · refine Or.inr ?_
      unfold ExponentialSTDPSynapse.update_on_pre_spikes
      rw [if_neg hstat, if_neg hg]
  · intro mask t
    by_cases hg : (mask.length == (Synapse.init P Q W tm tp lm lp).last_post_spike_time.length &&
        (Synapse.init P Q W tm tp lm lp).wellShaped) = true
    · refine Or.inl ?_
      unfold ExponentialSTDPSynapse.update_on_post_spikes
      rw [if_neg hstat, if_pos hg]
    · refine Or.inr ?_
      unfold ExponentialSTDPSynapse.update_on_post_spikes
      rw [if_neg hstat, if_neg hg]

theorem claim10_amended_witness :
    (Synapse.init 1 1 [[2]] 20 20 0.1 0.1).w_min = 0 ∧
    (Synapse.init 1 1 [[2]] 20 20 0.1 0.1).weights = [[2]] ∧
    Synapse.forward (Synapse.init 1 1 [[2]] 20 20 0.1 0.1) [1] =
      .ok (Synapse.init 1 1 [[2]] 20 20 0.1 0.1, vecMatMul [1] [[2]] 1) ∧
    (ExponentialSTDPSynapse.update_on_pre_spikes
        (Synapse.init 1 1 [[2]] 20 20 0.1 0.1) [true] 3 = .error .BroadcastMismatch ∨
      ExponentialSTDPSynapse.update_on_pre_spikes
        (Synapse.init 1 1 [[2]] 20 20 0.1 0.1) [true] 3 = .error .ShapeMismatch) :=
  ⟨(claim10_amended 1 1 [[2]] 20 20 0.1 0.1).1,
    (claim10_amended 1 1 [[2]] 20 20 0.1 0.1).2.2.1,
    (claim10_amended 1 1 [[2]] 20 20 0.1 0.1).2.2.2.2.1 [1] rfl,
    (claim10_amended 1 1 [[2]] 20 20 0.1 0.1).2.2.2.2.2.1 [true] 3⟩

end SNet
